import Mathlib

/-!
Shallow embedding of the decision and configuration core of the
automated-irrigation controller (src/src/main.cpp).

Floating-point values (`float` in the source) are modelled as rationals;
the `byte` type is modelled as `Nat` with explicit reduction modulo 256
where the source relies on byte wrap-around.
-/

namespace Riego

/-- Calibrated sensor values, mirroring `struct SensorData`
(the `update` method is modelled by `sensorUpdateTemperature` and
`sensorUpdateHumidity` below). -/
structure SensorData where
  temperature : ℚ
  humidity : ℚ
deriving DecidableEq

/-- Global system state, mirroring `struct SystemState`.
`selectedCrop` is a `byte` in the source, modelled as `Nat` (< 256). -/
structure SystemState where
  sensorReadings : SensorData
  motorActive : Bool
  cropValid : Bool
  selectedCrop : Nat
deriving DecidableEq

/-- Active crop parameter store, mirroring `struct CropParameters`. -/
structure CropParameters where
  minTemp : ℚ
  maxTemp : ℚ
  minHumidity : ℚ
  maxHumidity : ℚ
deriving DecidableEq

/-- `#define VCC 5.0`. -/
def VCC : ℚ := 5

/-- `#define ADC_MAX_VALUE 1023`. -/
def ADC_MAX_VALUE : Nat := 1023

/-- `#define TEMP_CALIBRATION_OFFSET -50`. -/
def TEMP_CALIBRATION_OFFSET : ℚ := -50

/-- Number of entries of `cropList` (`sizeCropList`): two crops,
Cilantro and Fresa. -/
def sizeCropList : Nat := 2

/-- Zero-initialized global `cropParameters` (C++ static storage). -/
def initCropParameters : CropParameters := ⟨0, 0, 0, 0⟩

/-- Zero-initialized global `systemState` (C++ static storage). -/
def initSystemState : SystemState := ⟨⟨0, 0⟩, false, false, 0⟩

/-- Reduction of an `int` value to a `byte` on assignment
(C++ modulo-256 conversion). -/
def byteOfInt (i : Int) : Nat := (i % 256).toNat

/-- `NO_KEY` of the Keypad library: the character `\0`, code 0. -/
def NO_KEY : Nat := 0

/-- `bool isValidCropSelection(byte selection)`:
`selection >= 1 && selection <= sizeCropList`. -/
def isValidCropSelection (selection : Nat) : Bool :=
  decide (selection ≥ 1) && decide (selection ≤ sizeCropList)

/-- `void addCropParameters(byte option)`: the switch over crop ids,
returning the updated store (default case leaves it unchanged). -/
def addCropParameters (option : Nat) (p : CropParameters) : CropParameters :=
  if option = 1 then ⟨15, 24, 40, 50⟩
  else if option = 2 then ⟨15, 20, 60, 80⟩
  else p

/-- One iteration of the polling loop body of `void selectCrop()`, given
the key code returned by `key.getKey()` (`NO_KEY` = 0 when no key is
pressed).  The source assigns `systemState.selectedCrop = option - '0'`
before checking `option != NO_KEY`; on a valid selection it calls
`addCropParameters` and sets `cropValid` (also set again inside
`processCropSelection`). -/
def selectCropStep (s : SystemState) (p : CropParameters) (k : Nat) :
    SystemState × CropParameters :=
  let s1 := { s with selectedCrop := byteOfInt ((k : Int) - 48) }
  if k ≠ NO_KEY then
    if isValidCropSelection s1.selectedCrop then
      ({ s1 with cropValid := true }, addCropParameters s1.selectedCrop p)
    else
      (s1, p)
  else
    (s1, p)

/-- The `do { selectCrop(); } while (!cropValid)` loop of `setup()`, run
over a finite list of polled key codes: once `cropValid` holds, further
keys are not processed. -/
def runSelection (s : SystemState) (p : CropParameters) :
    List Nat → SystemState × CropParameters
  | [] => (s, p)
  | k :: rest =>
    if s.cropValid then (s, p)
    else runSelection (selectCropStep s p k).1 (selectCropStep s p k).2 rest

/-- `float readTemperature()` as a function of the raw ADC sample:
`((analogRead(TMP_SENSOR) * 5.0 / 1023.0) * 100.0) - 50`. -/
def readTemperature (raw : Nat) : ℚ :=
  ((raw * 5 / 1023) * 100) - 50

/-- `float readHumidity()` as a function of the raw ADC sample:
`(analogRead(HUM_SENSOR) * 5.0 / 1023.0) * 100.0`. -/
def readHumidity (raw : Nat) : ℚ :=
  (raw * 5 / 1023) * 100

/-- The temperature formula of `SensorData::update`:
`(analogRead(TMP_SENSOR) * VCC / ADC_MAX_VALUE) * 100.0 + TEMP_CALIBRATION_OFFSET`. -/
def sensorUpdateTemperature (raw : Nat) : ℚ :=
  ((raw * VCC / (ADC_MAX_VALUE : ℚ)) * 100) + TEMP_CALIBRATION_OFFSET

/-- The humidity formula of `SensorData::update`:
`(analogRead(HUM_SENSOR) * VCC / ADC_MAX_VALUE) * 100.0`. -/
def sensorUpdateHumidity (raw : Nat) : ℚ :=
  (raw * VCC / (ADC_MAX_VALUE : ℚ)) * 100

/-- `bool receiveRange(float tmp, float hum)`: sanity checks followed by
the two threshold branches. -/
def receiveRange (p : CropParameters) (tmp hum : ℚ) : Bool :=
  if tmp < -20 ∨ tmp > 100 then
    false
  else if hum < 0 ∨ hum > 100 then
    false
  else if (tmp ≥ p.minTemp ∧ tmp ≤ p.maxTemp) ∧ hum ≤ p.minHumidity then
    true
  else if (tmp ≥ p.minTemp ∧ tmp ≤ p.maxTemp) ∧ hum ≤ p.maxHumidity then
    true
  else
    false

/-- The documented parameter invariant:
`minTemp ≤ maxTemp` and `0 ≤ minHumidity ≤ maxHumidity ≤ 100`. -/
def paramsInv (p : CropParameters) : Prop :=
  p.minTemp ≤ p.maxTemp ∧ 0 ≤ p.minHumidity ∧
    p.minHumidity ≤ p.maxHumidity ∧ p.maxHumidity ≤ 100

end Riego

namespace Riego

/-- C1: for every reading passing the sanity check and every parameter
set with `minHumidity ≤ maxHumidity`, `receiveRange` returns `true` iff
the temperature lies in `[minTemp, maxTemp]` and
`humidity ≤ maxHumidity`: the two code branches together equal this
single rule. -/
theorem receiveRange_iff_thresholds (p : CropParameters) (tmp hum : ℚ)
    (hmm : p.minHumidity ≤ p.maxHumidity)
    (ht : -20 ≤ tmp ∧ tmp ≤ 100) (hh : 0 ≤ hum ∧ hum ≤ 100) :
    receiveRange p tmp hum = true ↔
      (p.minTemp ≤ tmp ∧ tmp ≤ p.maxTemp ∧ hum ≤ p.maxHumidity) := by
  have h1 : ¬ (tmp < -20 ∨ tmp > 100) := by
    push_neg
    exact ht
  have h2 : ¬ (hum < 0 ∨ hum > 100) := by
    push_neg
    exact hh
  unfold receiveRange
  rw [if_neg h1, if_neg h2]
  split_ifs with h3 h4
  · simp only [true_iff]
    exact ⟨h3.1.1, h3.1.2, le_trans h3.2 hmm⟩
  · simp only [true_iff]
    exact ⟨h4.1.1, h4.1.2, h4.2⟩
  · simp only [false_iff]
    intro hc
    exact h4 ⟨⟨hc.1, hc.2.1⟩, hc.2.2⟩

/-- Witness for C1 at `params = ⟨15, 24, 40, 50⟩`, `tmp = 20`,
`hum = 45` (the spec's first boundary scenario). -/
theorem receiveRange_iff_thresholds_witness :
    receiveRange ⟨15, 24, 40, 50⟩ 20 45 = true := by
  rw [receiveRange_iff_thresholds ⟨15, 24, 40, 50⟩ 20 45 (by norm_num)
    (by norm_num) (by norm_num)]
  norm_num

/-- C2: any reading with temperature outside `[-20, 100]` or humidity
outside `[0, 100]` makes `receiveRange` return `false` for every
parameter set, skipping threshold evaluation. -/
theorem receiveRange_failsafe (p : CropParameters) (tmp hum : ℚ)
    (h : tmp < -20 ∨ tmp > 100 ∨ hum < 0 ∨ hum > 100) :
    receiveRange p tmp hum = false := by
  unfold receiveRange
  split_ifs with h1 h2 h3 h4
  · rfl
  · rfl
  · exfalso
    rcases h with h | h | h | h
    · exact h1 (Or.inl h)
    · exact h1 (Or.inr h)
    · exact h2 (Or.inl h)
    · exact h2 (Or.inr h)
  · exfalso
    rcases h with h | h | h | h
    · exact h1 (Or.inl h)
    · exact h1 (Or.inr h)
    · exact h2 (Or.inl h)
    · exact h2 (Or.inr h)
  · rfl

/-- Witness for C2 at `tmp = 150`, `hum = 50`, default parameters. -/
theorem receiveRange_failsafe_witness :
    receiveRange ⟨0, 0, 0, 0⟩ 150 50 = false :=
  receiveRange_failsafe ⟨0, 0, 0, 0⟩ 150 50 (Or.inr (Or.inl (by norm_num)))

/-- C3 counterexample: processing the invalid key `'5'` (code 53, id 5
out of range for the 2-crop catalog) from the zero-initialized state
does change `SystemState`: `selectedCrop` becomes 5. -/
theorem selectCrop_invalid_changes_state :
    (selectCropStep initSystemState initCropParameters 53).1 ≠
      initSystemState ∧
    (selectCropStep initSystemState initCropParameters 53).1.selectedCrop
      = 5 := by
  constructor
  · intro h
    have := congrArg SystemState.selectedCrop h
    simp [selectCropStep, initSystemState, byteOfInt, NO_KEY,
      isValidCropSelection, sizeCropList] at this
  · simp [selectCropStep, initSystemState, byteOfInt, NO_KEY,
      isValidCropSelection, sizeCropList]

/-- C3 amended: on an invalid key (out-of-range id or non-digit key)
the machine re-prompts with no state change except `selectedCrop`,
which is overwritten with the byte value of `key - '0'`: `cropValid`,
`motorActive`, the sensor readings and the active `CropParameters` are
all unchanged. -/
theorem selectCrop_invalid_frame (s : SystemState) (p : CropParameters)
    (k : Nat) (hk : k ≠ NO_KEY)
    (hinv : isValidCropSelection (byteOfInt ((k : Int) - 48)) = false) :
    (selectCropStep s p k).1.sensorReadings = s.sensorReadings ∧
    (selectCropStep s p k).1.motorActive = s.motorActive ∧
    (selectCropStep s p k).1.cropValid = s.cropValid ∧
    (selectCropStep s p k).1.selectedCrop = byteOfInt ((k : Int) - 48) ∧
    (selectCropStep s p k).2 = p := by
  simp [selectCropStep, hk, hinv]

/-- Witness for C3 amended: key `'A'` (code 65, byte value 17) on the
zero-initialized state. -/
theorem selectCrop_invalid_frame_witness :
    (selectCropStep initSystemState initCropParameters 65).1.cropValid
      = initSystemState.cropValid ∧
    (selectCropStep initSystemState initCropParameters 65).1.selectedCrop
      = 17 ∧
    (selectCropStep initSystemState initCropParameters 65).2
      = initCropParameters := by
  have h := selectCrop_invalid_frame initSystemState initCropParameters 65
    (by decide) (by decide)
  exact ⟨h.2.2.1, h.2.2.2.1.trans (by decide), h.2.2.2.2⟩

/-- C4: from an unconfirmed state, the machine sets `cropValid` only
when the pressed key yields an id in `[1, sizeCropList]`; each of the
non-digit keys `'A'`, `'B'`, `'C'`, `'D'`, `'*'`, `'#'` and the key
`'0'` is rejected under the byte arithmetic of `key - '0'`. -/
theorem selectCrop_confirm_only_valid (s : SystemState)
    (p : CropParameters) (k : Nat) (h : s.cropValid = false) :
    ((selectCropStep s p k).1.cropValid = true →
      1 ≤ (selectCropStep s p k).1.selectedCrop ∧
        (selectCropStep s p k).1.selectedCrop ≤ sizeCropList) ∧
    (k ∈ [65, 66, 67, 68, 42, 35, 48] →
      (selectCropStep s p k).1.cropValid = false) := by
  constructor
  · intro hc
    by_cases hk : k ≠ NO_KEY
    · by_cases hv :
        isValidCropSelection (byteOfInt ((k : Int) - 48)) = true
      · have hsel : (selectCropStep s p k).1.selectedCrop =
            byteOfInt ((k : Int) - 48) := by
          simp [selectCropStep, hk, hv]
        rw [hsel]
        have := hv
        unfold isValidCropSelection at this
        simp only [Bool.and_eq_true, decide_eq_true_eq] at this
        exact this
      · exfalso
        rw [Bool.not_eq_true] at hv
        have : (selectCropStep s p k).1.cropValid = s.cropValid := by
          simp [selectCropStep, hk, hv]
        rw [this, h] at hc
        exact Bool.false_ne_true hc
    · exfalso
      rw [not_not] at hk
      have : (selectCropStep s p k).1.cropValid = s.cropValid := by
        simp [selectCropStep, hk]
      rw [this, h] at hc
      exact Bool.false_ne_true hc
  · intro hmem
    fin_cases hmem <;>
      simp [selectCropStep, byteOfInt, NO_KEY, isValidCropSelection,
        sizeCropList, h]

/-- Witness for C4 at the zero-initialized state and key `'1'`
(code 49): the id 1 is accepted and lies in `[1, sizeCropList]`. -/
theorem selectCrop_confirm_only_valid_witness :
    1 ≤ (selectCropStep initSystemState initCropParameters 49).1.selectedCrop ∧
    (selectCropStep initSystemState initCropParameters 49).1.selectedCrop
      ≤ sizeCropList :=
  (selectCrop_confirm_only_valid initSystemState initCropParameters 49
    rfl).1 (by decide)

/-- C5: for every crop id outside `[1, sizeCropList]`,
`addCropParameters` leaves all four fields of the active parameter
store unchanged. -/
theorem addCropParameters_frame (p : CropParameters) (i : Nat)
    (h : i < 1 ∨ sizeCropList < i) :
    addCropParameters i p = p := by
  have h1 : i ≠ 1 := by
    unfold sizeCropList at h
    omega
  have h2 : i ≠ 2 := by
    unfold sizeCropList at h
    omega
  unfold addCropParameters
  rw [if_neg h1, if_neg h2]

/-- Witness for C5 at id 5 and the zero-initialized store. -/
theorem addCropParameters_frame_witness :
    addCropParameters 5 initCropParameters = initCropParameters :=
  addCropParameters_frame initCropParameters 5 (Or.inr (by decide))

/-- C10: when the poll returns `NO_KEY`, the step leaves `cropValid`
and the parameter store unchanged but overwrites `selectedCrop` with
the byte value of `NO_KEY - '0'`, namely 208, because the assignment
precedes the no-key check. -/
theorem selectCrop_nokey (s : SystemState) (p : CropParameters) :
    (selectCropStep s p NO_KEY).1.cropValid = s.cropValid ∧
    selectCropStep s p NO_KEY = ({ s with selectedCrop := 208 }, p) := by
  constructor
  · simp [selectCropStep, NO_KEY]
  · simp [selectCropStep, NO_KEY, byteOfInt]

/-- C6: for raw samples `r ≤ r2 ≤ ADC_MAX_VALUE`, `readTemperature` and
`readHumidity` compute exactly the documented formulas, agree with the
formulas of `SensorData::update`, and are monotone non-decreasing in
the raw sample. -/
theorem sensor_calibration (r r2 : Nat) (hle : r ≤ r2)
    (hmax : r2 ≤ ADC_MAX_VALUE) :
    readTemperature r =
      (r * VCC / (ADC_MAX_VALUE : ℚ)) * 100 + TEMP_CALIBRATION_OFFSET ∧
    readHumidity r = (r * VCC / (ADC_MAX_VALUE : ℚ)) * 100 ∧
    sensorUpdateTemperature r = readTemperature r ∧
    sensorUpdateHumidity r = readHumidity r ∧
    readTemperature r ≤ readTemperature r2 ∧
    readHumidity r ≤ readHumidity r2 := by
  have hcast : (r : ℚ) ≤ (r2 : ℚ) := by
    exact_mod_cast hle
  refine ⟨?_, ?_, ?_, ?_, ?_, ?_⟩
  · unfold readTemperature VCC ADC_MAX_VALUE TEMP_CALIBRATION_OFFSET
    push_cast
    ring
  · unfold readHumidity VCC ADC_MAX_VALUE
    push_cast
    ring
  · unfold sensorUpdateTemperature readTemperature VCC ADC_MAX_VALUE
      TEMP_CALIBRATION_OFFSET
    push_cast
    ring
  · unfold sensorUpdateHumidity readHumidity VCC ADC_MAX_VALUE
    push_cast
    ring
  · unfold readTemperature
    linarith
  · unfold readHumidity
    linarith

/-- Witness for C6 at `r = 0`, `r2 = 1023`. -/
theorem sensor_calibration_witness :
    readTemperature 0 ≤ readTemperature 1023 ∧
    sensorUpdateHumidity 0 = readHumidity 0 :=
  ⟨(sensor_calibration 0 1023 (by decide) (by decide)).2.2.2.2.1,
    (sensor_calibration 0 1023 (by decide) (by decide)).2.2.2.1⟩

/-- C7: from the zero-initialized state with the 2-crop catalog, the
key `'5'` (code 53) is rejected — `cropValid` stays `false` and the
parameters are untouched — and the subsequent key `'2'` (code 50) is
accepted: the machine confirms with `selectedCrop = 2` and the active
parameters become `⟨15, 20, 60, 80⟩`. -/
theorem selection_sequence_five_two :
    (selectCropStep initSystemState initCropParameters 53).1.cropValid
      = false ∧
    (selectCropStep initSystemState initCropParameters 53).2
      = initCropParameters ∧
    (runSelection initSystemState initCropParameters [53, 50]).1.cropValid
      = true ∧
    (runSelection initSystemState initCropParameters [53, 50]).1.selectedCrop
      = 2 ∧
    (runSelection initSystemState initCropParameters [53, 50]).2
      = ⟨15, 20, 60, 80⟩ := by
  refine ⟨?_, ?_, ?_, ?_, ?_⟩ <;> rfl

/-- Every switch case of `addCropParameters` and the zero-initialized
store preserve the parameter invariant. -/
theorem addCropParameters_preserves_inv (o : Nat) (p : CropParameters)
    (h : paramsInv p) : paramsInv (addCropParameters o p) := by
  unfold addCropParameters
  split_ifs with h1 h2
  · exact ⟨by norm_num, by norm_num, by norm_num, by norm_num⟩
  · exact ⟨by norm_num, by norm_num, by norm_num, by norm_num⟩
  · exact h

/-- Folding `addCropParameters` over any id sequence preserves the
parameter invariant. -/
theorem foldl_addCropParameters_inv (opts : List Nat)
    (p : CropParameters) (h : paramsInv p) :
    paramsInv (opts.foldl (fun q o => addCropParameters o q) p) := by
  induction opts generalizing p with
  | nil => exact h
  | cons o rest ih =>
    exact ih (addCropParameters o p) (addCropParameters_preserves_inv o p h)

/-- One step of the selection loop only rewrites the parameter store
through `addCropParameters`, so it preserves the parameter invariant. -/
theorem selectCropStep_inv (s : SystemState) (p : CropParameters)
    (k : Nat) (h : paramsInv p) : paramsInv (selectCropStep s p k).2 := by
  by_cases hk : k ≠ NO_KEY
  · by_cases hv : isValidCropSelection (byteOfInt ((k : Int) - 48)) = true
    · have heq : (selectCropStep s p k).2 =
          addCropParameters (byteOfInt ((k : Int) - 48)) p := by
        simp [selectCropStep, hk, hv]
      rw [heq]
      exact addCropParameters_preserves_inv _ p h
    · have heq : (selectCropStep s p k).2 = p := by
        rw [Bool.not_eq_true] at hv
        simp [selectCropStep, hk, hv]
      rw [heq]
      exact h
  · have heq : (selectCropStep s p k).2 = p := by
      rw [not_not] at hk
      simp [selectCropStep, hk]
    rw [heq]
    exact h

/-- The selection loop preserves the parameter invariant. -/
theorem runSelection_inv (ks : List Nat) (s : SystemState)
    (p : CropParameters) (h : paramsInv p) :
    paramsInv (runSelection s p ks).2 := by
  induction ks generalizing s p with
  | nil => exact h
  | cons k rest ih =>
    by_cases hv : s.cropValid = true
    · simp only [runSelection, hv, if_true]
      exact h
    · rw [Bool.not_eq_true] at hv
      simp only [runSelection, hv, Bool.false_eq_true, if_false]
      exact ih _ _ (selectCropStep_inv s p k h)

/-- C8: the zero-initialized store, both literal tuples of the lookup
table, and the store after any sequence of lookup calls and any run of
the selection machine, all satisfy `minTemp ≤ maxTemp` and
`0 ≤ minHumidity ≤ maxHumidity ≤ 100`. -/
theorem cropParameters_invariant :
    paramsInv initCropParameters ∧
    paramsInv ⟨15, 24, 40, 50⟩ ∧
    paramsInv ⟨15, 20, 60, 80⟩ ∧
    (∀ opts : List Nat,
      paramsInv (opts.foldl (fun q o => addCropParameters o q)
        initCropParameters)) ∧
    (∀ ks : List Nat,
      paramsInv (runSelection initSystemState initCropParameters ks).2) := by
  have hinit : paramsInv initCropParameters :=
    ⟨le_refl 0, le_refl 0, le_refl 0, by
      show (0 : ℚ) ≤ 100
      norm_num⟩
  refine ⟨hinit, ?_, ?_, ?_, ?_⟩
  · exact ⟨by norm_num, by norm_num, by norm_num, by norm_num⟩
  · exact ⟨by norm_num, by norm_num, by norm_num, by norm_num⟩
  · intro opts
    exact foldl_addCropParameters_inv opts initCropParameters hinit
  · intro ks
    exact runSelection_inv ks initSystemState initCropParameters hinit

/-- C9 counterexample: at the raw sample 1023, the calibrated humidity
is 500, outside `[0, 100]`, and the calibrated temperature is 450,
outside `[-50, 50]`; on these calibrated readings the humidity
out-of-range branch and the temperature `> 100` branch of
`receiveRange` do fire. -/
theorem sensor_range_counterexample :
    readHumidity 1023 = 500 ∧ ¬ readHumidity 1023 ≤ 100 ∧
    readTemperature 1023 = 450 ∧ ¬ readTemperature 1023 ≤ 50 ∧
    receiveRange ⟨15, 24, 40, 50⟩ 20 (readHumidity 1023) = false ∧
    receiveRange ⟨15, 24, 40, 50⟩ (readTemperature 1023) 45 = false := by
  have hh : readHumidity 1023 = 500 := by
    unfold readHumidity
    norm_num
  have ht : readTemperature 1023 = 450 := by
    unfold readTemperature
    norm_num
  refine ⟨hh, ?_, ht, ?_, ?_, ?_⟩
  · rw [hh]
    norm_num
  · rw [ht]
    norm_num
  · rw [hh]
    unfold receiveRange
    norm_num
  · rw [ht]
    unfold receiveRange
    norm_num

/-- C9 amended: for every raw sample `r ∈ [0, ADC_MAX_VALUE]` the
calibrated humidity lies in `[0, 500]` and the calibrated temperature
in `[-50, 450]`; both exceed 100 for large samples, so the decision
function's humidity out-of-range branch and its temperature `> 100`
branch are reachable on calibrated readings, as is the
temperature `< -20` branch. -/
theorem sensor_range_amended (r : Nat) (h : r ≤ ADC_MAX_VALUE) :
    (0 ≤ readHumidity r ∧ readHumidity r ≤ 500 ∧
      -50 ≤ readTemperature r ∧ readTemperature r ≤ 450) ∧
    receiveRange ⟨15, 24, 40, 50⟩ 20 (readHumidity 1023) = false ∧
    receiveRange ⟨15, 24, 40, 50⟩ (readTemperature 1023) 45 = false ∧
    receiveRange ⟨15, 24, 40, 50⟩ (readTemperature 0) 45 = false := by
  have hr : (r : ℚ) ≤ 1023 := by
    unfold ADC_MAX_VALUE at h
    exact_mod_cast h
  have hr0 : (0 : ℚ) ≤ (r : ℚ) := Nat.cast_nonneg r
  refine ⟨⟨?_, ?_, ?_, ?_⟩, ?_, ?_, ?_⟩
  · unfold readHumidity
    positivity
  · unfold readHumidity
    linarith
  · unfold readTemperature
    linarith
  · unfold readTemperature
    linarith
  · have hh : readHumidity 1023 = 500 := by
      unfold readHumidity
      norm_num
    rw [hh]
    unfold receiveRange
    norm_num
  · have ht : readTemperature 1023 = 450 := by
      unfold readTemperature
      norm_num
    rw [ht]
    unfold receiveRange
    norm_num
  · have h0 : readTemperature 0 = -50 := by
      unfold readTemperature
      norm_num
    rw [h0]
    unfold receiveRange
    norm_num

/-- Witness for C9 amended at `r = 512`. -/
theorem sensor_range_amended_witness :
    0 ≤ readHumidity 512 ∧ readHumidity 512 ≤ 500 :=
  ⟨(sensor_range_amended 512 (by decide)).1.1,
    (sensor_range_amended 512 (by decide)).1.2.1⟩

end Riego
